import Mathlib

/-!
Verification of the smooth wheel-zoom handler in src/SmoothWheelZoom.js.

The handler consists of an input accumulator (the functions _getWheelDelta and
_onWheeling, together with the gesture-start initialization _onWheelStart and
the debounce firing _onWheelEnd) and a per-frame animation driver
(_updateWheelZoom), plus the hook management addHooks/removeHooks.

Modelling conventions:
* numbers are embedded as exact rationals; the JavaScript engine uses binary
  floating point, whose rounding is outside the scope of this development, and
  all numeric literals of the source (0.003, 0.005, 0.3, 100, 200) are exact
  decimal rationals;
* the host map object (a Leaflet map) is an external collaborator; its
  capabilities (min/max zoom, the zoom-limiting policy, project/unproject,
  point conversion) are abstract parameters gathered in the Host structure,
  and the combined move operation map._move(center, zoom) is modelled as
  setting the zoom and center of the view exactly, with getCenter/getZoom
  reading them back and center equality being exact equality of coordinates;
* the undefined/NaN propagation of JavaScript arithmetic, which matters only
  for malformed wheel events, is embedded with values in Option ℚ where none
  stands for NaN (every comparison against none is false, every arithmetic
  operation on none yields none), in the functions named ...JS;
* the requestAnimationFrame / cancelAnimationFrame loop is embedded as a step
  function on a Loop state carrying a running flag; a stopped loop is
  absorbing.
-/

namespace SmoothWheelZoom

/-- A pixel point in container coordinates (L.Point). -/
structure Point where
  x : ℚ
  y : ℚ
deriving DecidableEq

/-- Pointwise subtraction, L.Point.subtract. -/
def Point.subtract (a b : Point) : Point :=
  ⟨a.x - b.x, a.y - b.y⟩

/-- Pointwise division by a scalar, L.Point.divideBy. -/
def Point.divideBy (a : Point) (q : ℚ) : Point :=
  ⟨a.x / q, a.y / q⟩

/-- A geographic coordinate (L.LatLng). -/
structure LatLng where
  lat : ℚ
  lng : ℚ
deriving DecidableEq

/-- The externally observable state of the host map view: its zoom level and
geographic center. -/
structure MapView where
  center : LatLng
  zoom : ℚ
deriving DecidableEq

/-- The capabilities the handler requires from the host map object and its
options, kept abstract: the zoom bounds, the zoom-limiting policy
(map._limitZoom, which may be non-linear, e.g. include snapping), the
projections map.project / map.unproject at a given zoom, the container size,
the pixel-to-geographic conversion at the current view, and the two
configuration options smoothSensitivity and smoothWheelZoom === 'center'. -/
structure Host where
  minZoom : ℚ
  maxZoom : ℚ
  limitZoom : ℚ → ℚ
  project : LatLng → ℚ → Point
  unproject : Point → ℚ → LatLng
  viewSize : Point
  containerPointToLatLng : MapView → Point → LatLng
  smoothSensitivity : ℚ
  smoothWheelZoomIsCenter : Bool

/-- The mutable fields of the handler instance together with the view it
drives.  The fields mirror the instance fields of the source:
_isWheeling, _wheelMousePosition, _centerPoint, _startLatLng,
_wheelStartLatLng, _startZoom, _moved, _zooming, _goalZoom, _prevCenter,
_prevZoom, _zoom and _center. -/
structure HandlerState where
  map : MapView
  isWheeling : Bool
  wheelMousePosition : Point
  centerPoint : Point
  startLatLng : LatLng
  wheelStartLatLng : LatLng
  startZoom : ℚ
  moved : Bool
  zooming : Bool
  goalZoom : ℚ
  prevCenter : LatLng
  prevZoom : ℚ
  zoomField : ℚ
  centerField : LatLng
deriving DecidableEq

/-- Truncation to two decimal places as the source computes it:
Math.floor(z * 100) / 100 (lines 187-188).  Math.floor rounds toward
negative infinity, hence Int.floor. -/
def truncate2 (q : ℚ) : ℚ :=
  ((⌊q * 100⌋ : ℤ) : ℚ) / 100

/-- NaN-propagating multiplication: in JavaScript any arithmetic on
undefined/NaN yields NaN, embedded here as none. -/
def jsMul : Option ℚ → Option ℚ → Option ℚ
  | some a, some b => some (a * b)
  | _, _ => none

/-- NaN-propagating addition. -/
def jsAdd : Option ℚ → Option ℚ → Option ℚ
  | some a, some b => some (a + b)
  | _, _ => none

/-- NaN-propagating strict comparison: every comparison involving NaN is
false in JavaScript. -/
def jsLt : Option ℚ → Option ℚ → Bool
  | some a, some b => decide (a < b)
  | _, _ => false

/-- The Leaflet-2.x fallback branch of _getWheelDelta (lines 97-104).  A
wheel event is modelled by its deltaMode and deltaY fields, each possibly
absent (none); -e.deltaY with deltaY absent is NaN in JavaScript, embedded as
none.  The platform factor is 3 on Mac, 1 elsewhere (line 98).  The other
branch of _getWheelDelta (line 94-96) delegates to the host library and is
not part of this repository. -/
def getWheelDelta (isMac : Bool) (deltaMode : Option ℕ) (deltaY : Option ℚ) :
    Option ℚ :=
  let factor : ℚ := if isMac then 3 else 1
  match deltaY with
  | none => none
  | some y =>
    if deltaMode = some 0 then some (-y / (40 * factor))
    else if deltaMode = some 1 then some (-y * (4 / factor))
    else some (-y)

/-- The goal-zoom accumulation of _onWheeling (lines 152-155) with JavaScript
NaN semantics: goalZoom = goalZoom + delta * 0.003 * smoothSensitivity, then,
only when the result compares below minZoom or above maxZoom (both
comparisons are false on NaN), the zoom-limiting policy of the view is
applied. -/
def updateGoalJS (h : Host) (goal delta : Option ℚ) : Option ℚ :=
  let g := jsAdd goal (jsMul (jsMul delta (some 0.003)) (some h.smoothSensitivity))
  if jsLt g (some h.minZoom) = true ∨ jsLt (some h.maxZoom) g = true then
    g.map h.limitZoom
  else g

/-- The goal-zoom accumulation of _onWheeling (lines 152-155) for an event
whose wheel delta is an actual number. -/
def updateGoalQ (h : Host) (goal delta : ℚ) : ℚ :=
  let g := goal + delta * 0.003 * h.smoothSensitivity
  if g < h.minZoom ∨ h.maxZoom < g then h.limitZoom g else g

/-- On numeric inputs the NaN-aware accumulation agrees with the rational
one. -/
theorem updateGoalJS_some (h : Host) (goal delta : ℚ) :
    updateGoalJS h (some goal) (some delta) = some (updateGoalQ h goal delta) := by
  simp only [updateGoalJS, updateGoalQ, jsAdd, jsMul, jsLt, Option.map]
  by_cases h1 : goal + delta * 0.003 * h.smoothSensitivity < h.minZoom <;>
    by_cases h2 : h.maxZoom < goal + delta * 0.003 * h.smoothSensitivity <;>
      simp [h1, h2]

/-- Folding a whole burst of wheel events (their normalized deltas) into the
goal zoom, one _onWheeling accumulation step per event. -/
def applyWheelSeq (h : Host) (goal : ℚ) (deltas : List ℚ) : ℚ :=
  deltas.foldl (updateGoalQ h) goal

/-- _onWheelStart (lines 128-147): gesture-start initialization.  It captures
the anchor state (cursor position, half the view size, the geographic points
under the view center and under the cursor), snapshots the current zoom into
_startZoom and _goalZoom and the current view into _prevCenter/_prevZoom,
clears _moved, sets the gesture flags, and starts the animation loop (the
loop itself is modelled separately by Loop/loopRun). -/
def onWheelStart (h : Host) (s : HandlerState) (mousePos : Point) :
    HandlerState :=
  { s with
    isWheeling := true
    wheelMousePosition := mousePos
    centerPoint := h.viewSize.divideBy 2
    startLatLng := h.containerPointToLatLng s.map (h.viewSize.divideBy 2)
    wheelStartLatLng := h.containerPointToLatLng s.map mousePos
    startZoom := s.map.zoom
    moved := false
    zooming := true
    goalZoom := s.map.zoom
    prevCenter := s.map.center
    prevZoom := s.map.zoom }

/-- _onWheeling (lines 149-163) for an event with numeric delta: accumulate
the goal zoom and refresh the cursor position.  The debounce timer reset
(clearTimeout/setTimeout, lines 158-159) is modelled by the isWheeling flag
staying true until _onWheelEnd fires. -/
def onWheeling (h : Host) (s : HandlerState) (delta : ℚ) (mousePos : Point) :
    HandlerState :=
  { s with
    goalZoom := updateGoalQ h s.goalZoom delta
    wheelMousePosition := mousePos }

/-- _onWheelEnd (lines 165-167): the debounce timer fired with no intervening
wheel event; only the gesture flag is cleared. -/
def onWheelEnd (s : HandlerState) : HandlerState :=
  { s with isWheeling := false }

/-- The zoom the driver computes on a frame (lines 187-188):
map.getZoom() + zoomDiff * 0.3, truncated to two decimal places. -/
def nextZoomOf (s : HandlerState) : ℚ :=
  truncate2 (s.map.zoom + (s.goalZoom - s.map.zoom) * 0.3)

/-- The center the driver computes on a committing frame (lines 196-200):
the gesture-start center in center mode, otherwise the unprojection at the
new zoom of (the projection of the gesture-start cursor point at the new
zoom, minus the pixel offset of the cursor from the view center). -/
def newCenterOf (h : Host) (s : HandlerState) : LatLng :=
  if h.smoothWheelZoomIsCenter then s.startLatLng
  else
    h.unproject
      ((h.project s.wheelStartLatLng (nextZoomOf s)).subtract
        (s.wheelMousePosition.subtract s.centerPoint))
      (nextZoomOf s)

/-- The state after the commit tail of a frame (lines 202-209): open the
transaction if necessary (_moveStart, modelled by the moved flag), apply the
combined move map._move(center, zoom) (modelled as setting the view state),
and snapshot the resulting view into _prevCenter/_prevZoom. -/
def commitState (h : Host) (s : HandlerState) : HandlerState :=
  { s with
    zoomField := nextZoomOf s
    centerField := newCenterOf h s
    moved := true
    map := { center := newCenterOf h s, zoom := nextZoomOf s }
    prevCenter := newCenterOf h s
    prevZoom := nextZoomOf s }

/-- The outcome of one frame: either the loop was cancelled
(cancelAnimationFrame followed by return) or a new frame was requested. -/
inductive TickResult where
  | stopped (s : HandlerState)
  | cont (s : HandlerState)
deriving DecidableEq

/-- _updateWheelZoom (lines 169-212), one animation frame.
First the interference check (lines 172-175): if the view no longer equals
the snapshots of the last committed frame, cancel the loop.  Then the
convergence check (lines 178-185): if |goalZoom - zoom| < 0.005 and the
gesture has ended, cancel the loop, closing the transaction (map._moveEnd)
when one was opened.  Otherwise compute the eased zoom (lines 187-188, stored
into _zoom), and if the cursor offset from the view center is exactly zero
(lines 190-194) request the next frame without touching the view; otherwise
commit the new center and zoom and request the next frame. -/
def tick (h : Host) (s : HandlerState) : TickResult :=
  if s.map.center = s.prevCenter ∧ s.map.zoom = s.prevZoom then
    if |s.goalZoom - s.map.zoom| < 0.005 ∧ s.isWheeling = false then
      .stopped (if s.moved then { s with moved := false } else s)
    else
      if (s.wheelMousePosition.subtract s.centerPoint).x = 0 ∧
          (s.wheelMousePosition.subtract s.centerPoint).y = 0 then
        .cont { s with zoomField := nextZoomOf s }
      else
        .cont (commitState h s)
  else
    .stopped s

/-- The state reached after one frame, ignoring whether the loop goes on. -/
def tickState (h : Host) (s : HandlerState) : HandlerState :=
  match tick h s with
  | .stopped t => t
  | .cont t => t

/-- The animation loop: the handler state together with whether a frame
callback is still scheduled. -/
structure Loop where
  st : HandlerState
  running : Bool
deriving DecidableEq

/-- One scheduler turn: a scheduled frame runs _updateWheelZoom once; a
cancelled loop stays cancelled. -/
def loopStep (h : Host) (l : Loop) : Loop :=
  if l.running then
    match tick h l.st with
    | .stopped t => ⟨t, false⟩
    | .cont t => ⟨t, true⟩
  else l

/-- Running the scheduler for a number of frames. -/
def loopRun (h : Host) : ℕ → Loop → Loop
  | 0, l => l
  | n + 1, l => loopRun h n (loopStep h l)

/-- The view matches the snapshots of the last committed frame: the
interference check of lines 172-175 passes. -/
def consistent (s : HandlerState) : Prop :=
  s.map.center = s.prevCenter ∧ s.map.zoom = s.prevZoom

instance (s : HandlerState) : Decidable (consistent s) := by
  unfold consistent; infer_instance

/-- The pixel offset of the cursor from the view center is exactly zero
(the skip condition of lines 190-194). -/
def deltaZero (s : HandlerState) : Prop :=
  (s.wheelMousePosition.subtract s.centerPoint).x = 0 ∧
    (s.wheelMousePosition.subtract s.centerPoint).y = 0

instance (s : HandlerState) : Decidable (deltaZero s) := by
  unfold deltaZero; infer_instance

/-- The hook/callback resources of one handler instance: whether the wheel
listener is attached (addHooks / removeHooks), whether the gesture-end
debounce timer is pending (_timeoutId, set on line 159), and whether an
animation-frame callback is scheduled (_zoomAnimationId, set on lines 146,
192 and 211). -/
structure HookState where
  wheelListenerAttached : Bool
  timeoutPending : Bool
  framePending : Bool
deriving DecidableEq

/-- removeHooks (lines 88-90): disabling the handler detaches the wheel
listener and does nothing else; in particular it neither clears the debounce
timer nor cancels a scheduled animation frame. -/
def removeHooks (s : HookState) : HookState :=
  { s with wheelListenerAttached := false }

/-! ### Branch shapes of one animation frame -/

/-- When the view no longer matches the last-commit snapshots, the frame
cancels the loop without touching anything (lines 172-175). -/
theorem tick_interfered (h : Host) (s : HandlerState) (hcons : ¬ consistent s) :
    tick h s = .stopped s := by
  simp only [consistent] at hcons
  rw [tick, if_neg hcons]

/-- When the view matches the snapshots, the gap is below 0.005 and the
gesture has ended, the frame cancels the loop, closing the transaction when
one is open (lines 178-185). -/
theorem tick_converged (h : Host) (s : HandlerState) (hcons : consistent s)
    (hstop : |s.goalZoom - s.map.zoom| < 0.005 ∧ s.isWheeling = false) :
    tick h s = .stopped (if s.moved then { s with moved := false } else s) := by
  simp only [consistent] at hcons
  rw [tick, if_pos hcons, if_pos hstop]

/-- When the frame neither aborts nor converges and the cursor offset is
exactly zero, it stores the eased zoom into _zoom but leaves the view alone
and requests the next frame (lines 190-194). -/
theorem tick_skip (h : Host) (s : HandlerState) (hcons : consistent s)
    (hns : ¬(|s.goalZoom - s.map.zoom| < 0.005 ∧ s.isWheeling = false))
    (hδ : deltaZero s) :
    tick h s = .cont { s with zoomField := nextZoomOf s } := by
  simp only [consistent] at hcons
  simp only [deltaZero] at hδ
  rw [tick, if_pos hcons, if_neg hns, if_pos hδ]

/-- When the frame neither aborts nor converges and the cursor offset is
nonzero, it commits the eased zoom and the resolved center (lines 196-211). -/
theorem tick_commit (h : Host) (s : HandlerState) (hcons : consistent s)
    (hns : ¬(|s.goalZoom - s.map.zoom| < 0.005 ∧ s.isWheeling = false))
    (hδ : ¬ deltaZero s) :
    tick h s = .cont (commitState h s) := by
  simp only [consistent] at hcons
  simp only [deltaZero] at hδ
  rw [tick, if_pos hcons, if_neg hns, if_neg hδ]

/-- Running one more frame peels one scheduler turn. -/
theorem loopRun_succ (h : Host) (n : ℕ) (l : Loop) :
    loopRun h (n + 1) l = loopRun h n (loopStep h l) := rfl

/-- A fixed point of the scheduler turn is a fixed point of any run. -/
theorem loopStep_fixed (h : Host) {l : Loop} (hl : loopStep h l = l) :
    ∀ n, loopRun h n l = l
  | 0 => rfl
  | n + 1 => by rw [loopRun_succ, hl, loopStep_fixed h hl n]

/-- A cancelled loop stays cancelled. -/
theorem loopStep_stopped (h : Host) (t : HandlerState) :
    loopStep h ⟨t, false⟩ = ⟨t, false⟩ := rfl

/-! ### The floor-truncated easing step -/

/-- On the 0.01 grid, the eased zoom of lines 187-188 is the grid point
k + ⌊30 d⌋ hundredths, where d is the zoom difference. -/
theorem nextZoomOf_grid (s : HandlerState) (k : ℤ)
    (hz : s.map.zoom = (k : ℚ) / 100) :
    nextZoomOf s = ((k + ⌊(s.goalZoom - s.map.zoom) * 30⌋ : ℤ) : ℚ) / 100 := by
  have harg : (s.map.zoom + (s.goalZoom - s.map.zoom) * 0.3) * 100
      = (k : ℚ) + (s.goalZoom - s.map.zoom) * 30 := by
    rw [hz]; ring
  rw [nextZoomOf, truncate2, harg, Int.floor_int_add]

/-- The committed frame changes the zoom difference d to d - ⌊30 d⌋ / 100 when
the view sat on the 0.01 grid. -/
theorem commit_diff (h : Host) (s : HandlerState) (k : ℤ)
    (hz : s.map.zoom = (k : ℚ) / 100) :
    s.goalZoom - (commitState h s).map.zoom
      = (s.goalZoom - s.map.zoom)
        - ((⌊(s.goalZoom - s.map.zoom) * 30⌋ : ℤ) : ℚ) / 100 := by
  have hcz : (commitState h s).map.zoom = nextZoomOf s := rfl
  rw [hcz, nextZoomOf_grid s k hz, hz]
  push_cast
  ring

/-- Provided the gap d is at least 0.005 in magnitude, one floor-truncated
easing step does not increase the magnitude of the gap. -/
theorem abs_step_le (d : ℚ) (hd : 0.005 ≤ |d|) :
    |d - ((⌊d * 30⌋ : ℤ) : ℚ) / 100| ≤ |d| := by
  have hfl : ((⌊d * 30⌋ : ℤ) : ℚ) ≤ d * 30 := Int.floor_le _
  have hfg : d * 30 - 1 < ((⌊d * 30⌋ : ℤ) : ℚ) := Int.sub_one_lt_floor _
  rcases le_or_lt 0 d with hpos | hneg
  · have h0 : (0 : ℤ) ≤ ⌊d * 30⌋ := Int.floor_nonneg.mpr (by nlinarith)
    have h0q : (0 : ℚ) ≤ ((⌊d * 30⌋ : ℤ) : ℚ) := by exact_mod_cast h0
    have hsub : (0 : ℚ) ≤ d - ((⌊d * 30⌋ : ℤ) : ℚ) / 100 := by nlinarith
    rw [abs_of_nonneg hpos, abs_of_nonneg hsub]
    linarith
  · have hdneg : d ≤ -0.005 := by
      rw [abs_of_neg hneg] at hd; linarith
    have h0 : ((⌊d * 30⌋ : ℤ) : ℚ) ≤ 0 := by
      have : (⌊d * 30⌋ : ℤ) ≤ 0 := Int.floor_nonpos (by nlinarith)
      exact_mod_cast this
    rw [abs_of_neg hneg, abs_le]
    refine ⟨by linarith, ?_⟩
    rcases le_or_lt d (-(1/170)) with hfar | hnear
    · linarith
    · have hflm : (⌊d * 30⌋ : ℤ) = -1 := by
        rw [Int.floor_eq_iff]
        constructor
        · push_cast; nlinarith
        · push_cast; nlinarith
      rw [hflm] at *
      push_cast at *
      linarith

/-- Provided the gap d is at least 1/30 in magnitude, one floor-truncated
easing step shrinks the magnitude of the gap by at least 0.01. -/
theorem abs_step_dec (d : ℚ) (hd : 1 / 30 ≤ |d|) :
    |d - ((⌊d * 30⌋ : ℤ) : ℚ) / 100| ≤ |d| - 1 / 100 := by
  have hfl : ((⌊d * 30⌋ : ℤ) : ℚ) ≤ d * 30 := Int.floor_le _
  have hfg : d * 30 - 1 < ((⌊d * 30⌋ : ℤ) : ℚ) := Int.sub_one_lt_floor _
  rcases le_or_lt 0 d with hpos | hneg
  · have hd' : 1 / 30 ≤ d := by rwa [abs_of_nonneg hpos] at hd
    have h1 : (1 : ℤ) ≤ ⌊d * 30⌋ := Int.le_floor.mpr (by push_cast; linarith)
    have h1q : (1 : ℚ) ≤ ((⌊d * 30⌋ : ℤ) : ℚ) := by exact_mod_cast h1
    have hsub : (0 : ℚ) ≤ d - ((⌊d * 30⌋ : ℤ) : ℚ) / 100 := by nlinarith
    rw [abs_of_nonneg hpos, abs_of_nonneg hsub]
    linarith
  · have hd' : d ≤ -(1 / 30) := by
      rw [abs_of_neg hneg] at hd; linarith
    have h1q : ((⌊d * 30⌋ : ℤ) : ℚ) ≤ -1 := by linarith
    have hsub : d - ((⌊d * 30⌋ : ℤ) : ℚ) / 100 < 0 := by linarith
    rw [abs_of_neg hneg, abs_of_neg hsub]
    linarith

/-! ### Concrete instances used by witnesses and counterexamples -/

/-- The plain min/max clamp: the zoom-limiting policy of a host configured
with zoomSnap 0 (the configuration the source header recommends). -/
def plainClamp (lo hi : ℚ) : ℚ → ℚ := fun z => max lo (min hi z)

/-- A concrete host instantiating the abstract capabilities: zoom bounds
[0, 18], plain clamp policy, a simple linear projection pair, an 800 x 600
view, sensitivity 1, cursor-anchored mode. -/
def cHost : Host where
  minZoom := 0
  maxZoom := 18
  limitZoom := plainClamp 0 18
  project := fun l z => ⟨l.lng * z, l.lat * z⟩
  unproject := fun p z => ⟨p.y / z, p.x / z⟩
  viewSize := ⟨800, 600⟩
  containerPointToLatLng := fun _ p => ⟨p.y, p.x⟩
  smoothSensitivity := 1
  smoothWheelZoomIsCenter := false

/-- The plain clamp policy of cHost lands inside the zoom bounds. -/
theorem cHost_limit_mem :
    ∀ z : ℚ, cHost.minZoom ≤ cHost.limitZoom z ∧ cHost.limitZoom z ≤ cHost.maxZoom := by
  intro z
  show (0 : ℚ) ≤ max 0 (min 18 z) ∧ max 0 (min 18 z) ≤ 18
  exact ⟨le_max_left _ _, max_le (by norm_num) (min_le_left _ _)⟩

/-- A mid-gesture state: zoom 10, goal zoom 10.5, cursor 100 pixels above
the view center, gesture ended, snapshots matching the view. -/
def ws1 : HandlerState where
  map := { center := ⟨5, 5⟩, zoom := 10 }
  isWheeling := false
  wheelMousePosition := ⟨400, 200⟩
  centerPoint := ⟨400, 300⟩
  startLatLng := ⟨5, 5⟩
  wheelStartLatLng := ⟨6, 6⟩
  startZoom := 10
  moved := false
  zooming := true
  goalZoom := 10.5
  prevCenter := ⟨5, 5⟩
  prevZoom := 10
  zoomField := 10
  centerField := ⟨5, 5⟩

/-! ### C2: goal-zoom accumulation -/

/-- C2 counterexample: at the max-zoom bound the accumulation is not the
plain sum.  With bounds [0, 18] and sensitivity 1, a +1 wheel event at goal
zoom 18 yields the clamped value 18, not 18.003. -/
theorem C2_counterexample :
    updateGoalQ cHost 18 1 ≠ 18 + 1 * 0.003 * cHost.smoothSensitivity := by
  norm_num [updateGoalQ, cHost, plainClamp, min_def, max_def]

/-- C2 (amended): every wheel event updates the goal zoom to
goalZoom + normalizedDelta * 0.003 * sensitivityFactor, and the update is
exactly that sum whenever it lies within [minZoom, maxZoom] (otherwise it is
clamped through the zoom-limiting policy of the view); in particular,
starting at zoom 10 with sensitivity 1, one event of normalized magnitude +1
makes the goal zoom 10.003, and ten consecutive +1 events make it 10.03. -/
theorem C2_goal_accumulation (h : Host) (g d : ℚ)
    (hin : h.minZoom ≤ g + d * 0.003 * h.smoothSensitivity ∧
      g + d * 0.003 * h.smoothSensitivity ≤ h.maxZoom) :
    updateGoalQ h g d = g + d * 0.003 * h.smoothSensitivity ∧
    updateGoalQ cHost 10 1 = 10.003 ∧
    applyWheelSeq cHost 10 (List.replicate 10 1) = 10.03 := by
  refine ⟨?_, by norm_num [updateGoalQ, cHost],
    by norm_num [applyWheelSeq, List.replicate, updateGoalQ, cHost]⟩
  rw [updateGoalQ, if_neg]
  push_neg
  exact hin

/-- C2 witness: the in-bounds hypothesis and the exact accumulation at the
concrete input (goal 10, delta +1, sensitivity 1, bounds [0, 18]). -/
theorem C2_goal_accumulation_witness :
    (cHost.minZoom ≤ 10 + 1 * 0.003 * cHost.smoothSensitivity ∧
      10 + 1 * 0.003 * cHost.smoothSensitivity ≤ cHost.maxZoom) ∧
    updateGoalQ cHost 10 1 = 10 + 1 * 0.003 * cHost.smoothSensitivity :=
  ⟨by norm_num [cHost], (C2_goal_accumulation cHost 10 1 (by norm_num [cHost])).1⟩

/-! ### C5: the goal zoom stays within the zoom bounds -/

/-- C5 (confirmed): provided the zoom-limiting policy of the view lands
inside [minZoom, maxZoom] and the gesture-start goal zoom (the current view
zoom) does, the goal zoom after any sequence of wheel events still lies
within [minZoom, maxZoom]: each accumulation step either stays in bounds or
is clamped through the policy. -/
theorem C5_goal_clamped (h : Host) (g : ℚ) (ds : List ℚ)
    (hlim : ∀ z, h.minZoom ≤ h.limitZoom z ∧ h.limitZoom z ≤ h.maxZoom)
    (hg : h.minZoom ≤ g ∧ g ≤ h.maxZoom) :
    h.minZoom ≤ applyWheelSeq h g ds ∧ applyWheelSeq h g ds ≤ h.maxZoom := by
  induction ds generalizing g with
  | nil => exact hg
  | cons d ds ih =>
    have hstep : h.minZoom ≤ updateGoalQ h g d ∧ updateGoalQ h g d ≤ h.maxZoom := by
      rw [updateGoalQ]
      split_ifs with hc
      · exact hlim _
      · push_neg at hc
        exact hc
    simpa only [applyWheelSeq, List.foldl_cons] using ih (updateGoalQ h g d) hstep

/-- C5 witness: a burst of two huge wheel deltas driving far past both
bounds, starting from goal zoom 10 within bounds [0, 18], ends inside the
bounds. -/
theorem C5_goal_clamped_witness :
    (∀ z, cHost.minZoom ≤ cHost.limitZoom z ∧ cHost.limitZoom z ≤ cHost.maxZoom) ∧
    (cHost.minZoom ≤ (10 : ℚ) ∧ (10 : ℚ) ≤ cHost.maxZoom) ∧
    (cHost.minZoom ≤ applyWheelSeq cHost 10 [100000, -9999999] ∧
      applyWheelSeq cHost 10 [100000, -9999999] ≤ cHost.maxZoom) :=
  ⟨cHost_limit_mem, by norm_num [cHost],
    C5_goal_clamped cHost 10 [100000, -9999999] cHost_limit_mem (by norm_num [cHost])⟩

/-! ### C6: the easing step -/

/-- C6 (confirmed): on every frame that passes the interference and
convergence checks and has a nonzero cursor offset, the zoom applied to the
view is map.getZoom() + (goalZoom - map.getZoom()) * 0.3, truncated to two
decimal places the way the source truncates, namely Math.floor(z * 100) / 100. -/
theorem C6_easing_step (h : Host) (s : HandlerState) (hcons : consistent s)
    (hns : ¬(|s.goalZoom - s.map.zoom| < 0.005 ∧ s.isWheeling = false))
    (hδ : ¬ deltaZero s) :
    ∃ t, tick h s = .cont t ∧
      t.map.zoom
        = ((⌊(s.map.zoom + (s.goalZoom - s.map.zoom) * 0.3) * 100⌋ : ℤ) : ℚ) / 100 :=
  ⟨commitState h s, tick_commit h s hcons hns hδ, rfl⟩

/-- C6 witness: the branch hypotheses and the committed zoom at the concrete
mid-gesture state ws1 (zoom 10, goal 10.5). -/
theorem C6_easing_step_witness :
    consistent ws1 ∧
    ¬(|ws1.goalZoom - ws1.map.zoom| < 0.005 ∧ ws1.isWheeling = false) ∧
    ¬ deltaZero ws1 ∧
    ∃ t, tick cHost ws1 = .cont t ∧
      t.map.zoom
        = ((⌊(ws1.map.zoom + (ws1.goalZoom - ws1.map.zoom) * 0.3) * 100⌋ : ℤ) : ℚ) / 100 := by
  have h1 : consistent ws1 := by decide
  have h2 : ¬(|ws1.goalZoom - ws1.map.zoom| < 0.005 ∧ ws1.isWheeling = false) := by
    norm_num [ws1, abs_of_nonneg]
  have h3 : ¬ deltaZero ws1 := by norm_num [deltaZero, Point.subtract, ws1]
  exact ⟨h1, h2, h3, C6_easing_step cHost ws1 h1 h2 h3⟩

/-! ### C3: anchor resolution -/

/-- C3 (confirmed): on every committing frame the center applied to the view
is, in center mode, the geographic point under the view center at gesture
start, and in cursor mode the unprojection at the new zoom of (the
projection of the gesture-start cursor geographic point at the new zoom,
minus the pixel offset of the cursor from the view center). -/
theorem C3_anchor_resolution (h : Host) (s : HandlerState) (hcons : consistent s)
    (hns : ¬(|s.goalZoom - s.map.zoom| < 0.005 ∧ s.isWheeling = false))
    (hδ : ¬ deltaZero s) :
    ∃ t, tick h s = .cont t ∧
      t.map.center
        = (if h.smoothWheelZoomIsCenter then s.startLatLng
           else
             h.unproject
               ((h.project s.wheelStartLatLng (nextZoomOf s)).subtract
                 (s.wheelMousePosition.subtract s.centerPoint))
               (nextZoomOf s)) :=
  ⟨commitState h s, tick_commit h s hcons hns hδ, rfl⟩

/-- C3 witness: the branch hypotheses and the committed center at the
concrete mid-gesture state ws1 under the cursor-mode host. -/
theorem C3_anchor_resolution_witness :
    consistent ws1 ∧
    ¬(|ws1.goalZoom - ws1.map.zoom| < 0.005 ∧ ws1.isWheeling = false) ∧
    ¬ deltaZero ws1 ∧
    ∃ t, tick cHost ws1 = .cont t ∧
      t.map.center
        = (if cHost.smoothWheelZoomIsCenter then ws1.startLatLng
           else
             cHost.unproject
               ((cHost.project ws1.wheelStartLatLng (nextZoomOf ws1)).subtract
                 (ws1.wheelMousePosition.subtract ws1.centerPoint))
               (nextZoomOf ws1)) := by
  have h1 : consistent ws1 := by decide
  have h2 : ¬(|ws1.goalZoom - ws1.map.zoom| < 0.005 ∧ ws1.isWheeling = false) := by
    norm_num [ws1, abs_of_nonneg]
  have h3 : ¬ deltaZero ws1 := by norm_num [deltaZero, Point.subtract, ws1]
  exact ⟨h1, h2, h3, C3_anchor_resolution cHost ws1 h1 h2 h3⟩

/-! ### C7: zero cursor offset -/

/-- A converged dead-center state: cursor exactly on the view center, goal
zoom equal to the view zoom, gesture ended, no open transaction. -/
def cs7 : HandlerState where
  map := { center := ⟨5, 5⟩, zoom := 10 }
  isWheeling := false
  wheelMousePosition := ⟨400, 300⟩
  centerPoint := ⟨400, 300⟩
  startLatLng := ⟨5, 5⟩
  wheelStartLatLng := ⟨5, 5⟩
  startZoom := 10
  moved := false
  zooming := true
  goalZoom := 10
  prevCenter := ⟨5, 5⟩
  prevZoom := 10
  zoomField := 10
  centerField := ⟨5, 5⟩

/-- C7 counterexample: a tick whose cursor offset is exactly zero but whose
convergence check fires (gap 0 and gesture ended) stops the loop instead of
rescheduling it. -/
theorem C7_counterexample :
    deltaZero cs7 ∧ tick cHost cs7 = .stopped cs7 := by
  constructor
  · norm_num [deltaZero, Point.subtract, cs7]
  · have hstop : |cs7.goalZoom - cs7.map.zoom| < 0.005 ∧ cs7.isWheeling = false := by
      norm_num [cs7]
    rw [tick_converged cHost cs7 (by decide) hstop]
    rfl

/-- C7 (amended): on any tick where the cursor offset is exactly zero the
view is not mutated, and on any such tick that additionally passes the
interference check and does not satisfy the stop condition (converged with
the gesture ended), the loop is rescheduled rather than stopped. -/
theorem C7_zero_offset_no_op (h : Host) (s : HandlerState) (hδ : deltaZero s) :
    (tickState h s).map = s.map ∧
    (consistent s → ¬(|s.goalZoom - s.map.zoom| < 0.005 ∧ s.isWheeling = false) →
      tick h s = .cont { s with zoomField := nextZoomOf s }) := by
  constructor
  · by_cases hcons : consistent s
    · by_cases hstop : |s.goalZoom - s.map.zoom| < 0.005 ∧ s.isWheeling = false
      · simp only [tickState, tick_converged h s hcons hstop]
        split_ifs <;> rfl
      · simp only [tickState, tick_skip h s hcons hstop hδ]
    · simp only [tickState, tick_interfered h s hcons]
  · intro hcons hns
    exact tick_skip h s hcons hns hδ

/-- C7 witness: a dead-center state with a still-open gap (goal 10.5, zoom
10): the view is untouched and the loop is rescheduled. -/
def ws7 : HandlerState where
  map := { center := ⟨5, 5⟩, zoom := 10 }
  isWheeling := false
  wheelMousePosition := ⟨400, 300⟩
  centerPoint := ⟨400, 300⟩
  startLatLng := ⟨5, 5⟩
  wheelStartLatLng := ⟨5, 5⟩
  startZoom := 10
  moved := false
  zooming := true
  goalZoom := 10.5
  prevCenter := ⟨5, 5⟩
  prevZoom := 10
  zoomField := 10
  centerField := ⟨5, 5⟩

/-- C7 witness statement: hypotheses and conclusion at the concrete state. -/
theorem C7_zero_offset_no_op_witness :
    deltaZero ws7 ∧
    ((tickState cHost ws7).map = ws7.map ∧
      (consistent ws7 →
        ¬(|ws7.goalZoom - ws7.map.zoom| < 0.005 ∧ ws7.isWheeling = false) →
        tick cHost ws7 = .cont { ws7 with zoomField := nextZoomOf ws7 })) := by
  have h1 : deltaZero ws7 := by norm_num [deltaZero, Point.subtract, ws7]
  exact ⟨h1, C7_zero_offset_no_op cHost ws7 h1⟩

/-! ### C8: malformed wheel events -/

/-- C8 counterexample: an event with no delta fields does not act as a
zero-magnitude event: its normalized delta is NaN (none) and the
accumulation turns the goal zoom into NaN instead of leaving it at 10. -/
theorem C8_counterexample :
    getWheelDelta false none none = none ∧
    updateGoalJS cHost (some 10) (getWheelDelta false none none) ≠ some 10 := by
  decide

/-- C8 (amended): processing a wheel event with missing delta fields does
not fail, but it is not treated as zero-magnitude either: the missing field
propagates as NaN into the goal zoom, which becomes NaN rather than staying
unchanged; an event carrying an explicit zero delta does leave an in-bounds
goal zoom unchanged. -/
theorem C8_malformed_delta (h : Host) (g : ℚ) (isMac : Bool) (dm : Option ℕ)
    (hg : h.minZoom ≤ g ∧ g ≤ h.maxZoom) :
    updateGoalJS h (some g) (getWheelDelta isMac dm none) = none ∧
    updateGoalJS h (some g) (getWheelDelta isMac dm (some 0)) = some g := by
  have hzero : ∀ d : ℚ, d = 0 → updateGoalJS h (some g) (some d) = some g := by
    intro d hd
    rw [updateGoalJS_some, updateGoalQ, hd]
    have harg : g + 0 * 0.003 * h.smoothSensitivity = g := by ring
    rw [harg, if_neg]
    push_neg
    exact hg
  constructor
  · simp [getWheelDelta, updateGoalJS, jsAdd, jsMul, jsLt]
  · simp only [getWheelDelta]
    split_ifs <;> exact hzero _ (by norm_num)

/-- C8 witness: the bounds hypothesis and both conclusions at the concrete
input (goal 10, bounds [0, 18], non-Mac platform, pixel delta mode). -/
theorem C8_malformed_delta_witness :
    (cHost.minZoom ≤ (10 : ℚ) ∧ (10 : ℚ) ≤ cHost.maxZoom) ∧
    (updateGoalJS cHost (some 10) (getWheelDelta false (some 0) none) = none ∧
      updateGoalJS cHost (some 10) (getWheelDelta false (some 0) (some 0)) = some 10) :=
  ⟨by norm_num [cHost], C8_malformed_delta cHost 10 false (some 0) (by norm_num [cHost])⟩

/-! ### C9: disabling the handler -/

/-- C9 (code bug): removeHooks only detaches the wheel listener.  Evaluated
at the failing input - a handler disabled mid-gesture, with the debounce
timer pending and an animation frame scheduled - both callbacks remain
pending after disabling, contradicting the claim that disable releases all
scheduled callbacks; disabling twice changes nothing further and produces no
error. -/
theorem C9_disable_leaves_callbacks :
    removeHooks ⟨true, true, true⟩ = ⟨false, true, true⟩ ∧
    removeHooks (removeHooks ⟨true, true, true⟩) = removeHooks ⟨true, true, true⟩ := by
  decide

/-! ### C4: interference abort -/

/-- C4 (confirmed): on any tick where the view zoom or center differs from
the snapshots taken at the last commit, the loop stops immediately without
touching the handler state or the view, and every later scheduler turn
leaves the cancelled loop, and hence the view, unchanged: the driver never
writes to the view after an external mutation is detected. -/
theorem C4_interference_abort (h : Host) (s : HandlerState)
    (hint : ¬ consistent s) :
    tick h s = .stopped s ∧
    ∀ n, 1 ≤ n → loopRun h n ⟨s, true⟩ = ⟨s, false⟩ := by
  have ht : tick h s = .stopped s := tick_interfered h s hint
  refine ⟨ht, ?_⟩
  intro n hn
  obtain ⟨m, rfl⟩ : ∃ m, n = m + 1 := ⟨n - 1, by omega⟩
  have hstep : loopStep h ⟨s, true⟩ = ⟨s, false⟩ := by
    simp [loopStep, ht]
  rw [loopRun_succ, hstep, loopStep_fixed h (loopStep_stopped h s) m]

/-- An interfered state: an external agent moved the view to zoom 11 while
the last-commit snapshot still records zoom 10. -/
def cs4 : HandlerState where
  map := { center := ⟨5, 5⟩, zoom := 11 }
  isWheeling := false
  wheelMousePosition := ⟨401, 300⟩
  centerPoint := ⟨400, 300⟩
  startLatLng := ⟨5, 5⟩
  wheelStartLatLng := ⟨6, 6⟩
  startZoom := 10
  moved := true
  zooming := true
  goalZoom := 10.5
  prevCenter := ⟨5, 5⟩
  prevZoom := 10
  zoomField := 10
  centerField := ⟨5, 5⟩

/-- C4 witness: the interference hypothesis and the conclusion at the
concrete interfered state, with the loop observed three turns later. -/
theorem C4_interference_abort_witness :
    ¬ consistent cs4 ∧
    (tick cHost cs4 = .stopped cs4 ∧ loopRun cHost 3 ⟨cs4, true⟩ = ⟨cs4, false⟩) := by
  have h1 : ¬ consistent cs4 := by norm_num [consistent, cs4]
  exact ⟨h1, (C4_interference_abort cHost cs4 h1).1,
    (C4_interference_abort cHost cs4 h1).2 3 (by norm_num)⟩

/-! ### C10: dead-center livelock -/

/-- C10 (confirmed): if the cursor recorded for the gesture sits exactly on
the view center, the driver never advances the view; when additionally the
gap is at least 0.005 at gesture end, the stop condition never fires and
the loop reschedules itself forever, every tick leaving the view and the
zoom difference unchanged. -/
theorem C10_dead_center_livelock (h : Host) (s : HandlerState)
    (hδ : deltaZero s) (hcons : consistent s) (hw : s.isWheeling = false)
    (hfar : 0.005 ≤ |s.goalZoom - s.map.zoom|) :
    ∀ n, (loopRun h n ⟨s, true⟩).running = true ∧
      (loopRun h n ⟨s, true⟩).st.map = s.map ∧
      (loopRun h n ⟨s, true⟩).st.goalZoom - (loopRun h n ⟨s, true⟩).st.map.zoom
        = s.goalZoom - s.map.zoom := by
  have hns : ¬(|s.goalZoom - s.map.zoom| < 0.005 ∧ s.isWheeling = false) := by
    intro hc
    exact absurd hfar (not_le.mpr hc.1)
  have hstep : loopStep h ⟨s, true⟩ = ⟨{ s with zoomField := nextZoomOf s }, true⟩ := by
    simp [loopStep, tick_skip h s hcons hns hδ]
  have hfix : loopStep h ⟨{ s with zoomField := nextZoomOf s }, true⟩
      = ⟨{ s with zoomField := nextZoomOf s }, true⟩ := by
    have h2 := tick_skip h { s with zoomField := nextZoomOf s } hcons hns hδ
    rw [loopStep, if_pos rfl, h2]
    rfl
  intro n
  cases n with
  | zero => exact ⟨rfl, rfl, rfl⟩
  | succ m =>
    rw [loopRun_succ, hstep, loopStep_fixed h hfix m]
    exact ⟨rfl, rfl, rfl⟩

/-- C10 witness: the hypotheses and the conclusion, five frames in, at the
concrete dead-center state with gap 0.5. -/
theorem C10_dead_center_livelock_witness :
    deltaZero ws7 ∧ consistent ws7 ∧ ws7.isWheeling = false ∧
    0.005 ≤ |ws7.goalZoom - ws7.map.zoom| ∧
    ((loopRun cHost 5 ⟨ws7, true⟩).running = true ∧
      (loopRun cHost 5 ⟨ws7, true⟩).st.map = ws7.map ∧
      (loopRun cHost 5 ⟨ws7, true⟩).st.goalZoom
          - (loopRun cHost 5 ⟨ws7, true⟩).st.map.zoom
        = ws7.goalZoom - ws7.map.zoom) := by
  have h1 : deltaZero ws7 := by norm_num [deltaZero, Point.subtract, ws7]
  have h2 : consistent ws7 := ⟨rfl, rfl⟩
  have h3 : ws7.isWheeling = false := rfl
  have h4 : (0.005 : ℚ) ≤ |ws7.goalZoom - ws7.map.zoom| := by
    norm_num [ws7, abs_of_nonneg]
  exact ⟨h1, h2, h3, h4, C10_dead_center_livelock cHost ws7 h1 h2 h3 h4 5⟩

/-! ### C1: convergence of the easing loop -/

/-- Bounded-frames convergence to within 1/30: while the gap is at least
1/30 a committing frame shrinks it by at least 0.01, so at most m frames are
needed when the gap is at most m/100. -/
theorem convergence_aux (h : Host) :
    ∀ m : ℕ, ∀ s : HandlerState, consistent s →
      (∃ k : ℤ, s.map.zoom = (k : ℚ) / 100) → ¬ deltaZero s →
      s.isWheeling = false →
      |s.goalZoom - s.map.zoom| ≤ (m : ℚ) / 100 →
      ∃ n, n ≤ m ∧ |s.goalZoom - (loopRun h n ⟨s, true⟩).st.map.zoom| < 1 / 30 := by
  intro m
  induction m with
  | zero =>
    intro s _ _ _ _ hm
    refine ⟨0, Nat.le_refl 0, ?_⟩
    have h0 : |s.goalZoom - s.map.zoom| ≤ 0 := by simpa using hm
    calc |s.goalZoom - (loopRun h 0 ⟨s, true⟩).st.map.zoom|
        = |s.goalZoom - s.map.zoom| := rfl
      _ ≤ 0 := h0
      _ < 1 / 30 := by norm_num
  | succ m ih =>
    intro s hcons hgrid hδ hw hm
    by_cases hsmall : |s.goalZoom - s.map.zoom| < 1 / 30
    · exact ⟨0, Nat.zero_le _, hsmall⟩
    · push_neg at hsmall
      obtain ⟨k, hz⟩ := hgrid
      have hns : ¬(|s.goalZoom - s.map.zoom| < 0.005 ∧ s.isWheeling = false) := by
        intro hc
        have h1 := lt_of_le_of_lt hsmall hc.1
        norm_num at h1
      have hcommit : tick h s = .cont (commitState h s) :=
        tick_commit h s hcons hns hδ
      have hstep : loopStep h ⟨s, true⟩ = ⟨commitState h s, true⟩ := by
        simp [loopStep, hcommit]
      have hzoom : (commitState h s).map.zoom
          = ((k + ⌊(s.goalZoom - s.map.zoom) * 30⌋ : ℤ) : ℚ) / 100 :=
        nextZoomOf_grid s k hz
      have hdec : |s.goalZoom - (commitState h s).map.zoom|
          ≤ |s.goalZoom - s.map.zoom| - 1 / 100 := by
        rw [commit_diff h s k hz]
        exact abs_step_dec _ hsmall
      have hm' : |(commitState h s).goalZoom - (commitState h s).map.zoom|
          ≤ (m : ℚ) / 100 := by
        have hgoal : (commitState h s).goalZoom = s.goalZoom := rfl
        have hcast : ((m + 1 : ℕ) : ℚ) = (m : ℚ) + 1 := by push_cast; ring
        rw [hcast] at hm
        rw [hgoal]
        linarith
      obtain ⟨n, hn, hconv⟩ := ih (commitState h s) ⟨rfl, rfl⟩
        ⟨k + ⌊(s.goalZoom - s.map.zoom) * 30⌋, hzoom⟩ hδ hw hm'
      refine ⟨n + 1, Nat.succ_le_succ hn, ?_⟩
      rw [loopRun_succ, hstep]
      exact hconv

/-- C1 (amended): once wheel input stops, provided the cursor offset is
nonzero (otherwise no frame ever commits), the view matches the last-commit
snapshots and the current zoom sits on the 0.01 grid (as every committed
zoom does), the magnitude of zoomDiff = goalZoom - currentViewZoom is
non-increasing from one tick to the next, and repeated tick() invocations
drive the view zoom to within 1/30 of goalZoom - not within 0.005 - in a
bounded number of frames (at most ceil of 100 |zoomDiff|).  Convergence to
within 0.005 fails in general: the floor truncation of the easing step makes
every residual gap in [0.005, 1/30) a fixed point, so the loop can run
forever without the stop condition firing. -/
theorem C1_convergence (h : Host) (s : HandlerState) (hcons : consistent s)
    (hgrid : ∃ k : ℤ, s.map.zoom = (k : ℚ) / 100) (hδ : ¬ deltaZero s)
    (hw : s.isWheeling = false) :
    |s.goalZoom - (tickState h s).map.zoom| ≤ |s.goalZoom - s.map.zoom| ∧
    ∃ n, n ≤ (⌈100 * |s.goalZoom - s.map.zoom|⌉).toNat ∧
      |s.goalZoom - (loopRun h n ⟨s, true⟩).st.map.zoom| < 1 / 30 := by
  obtain ⟨k, hz⟩ := hgrid
  constructor
  · by_cases hstop : |s.goalZoom - s.map.zoom| < 0.005 ∧ s.isWheeling = false
    · have hmap : (tickState h s).map = s.map := by
        simp only [tickState, tick_converged h s hcons hstop]
        split_ifs <;> rfl
      rw [hmap]
    · have htick : tickState h s = commitState h s := by
        simp only [tickState, tick_commit h s hcons hstop hδ]
      rw [htick, commit_diff h s k hz]
      apply abs_step_le
      rcases not_and_or.mp hstop with hge | hwf
      · exact not_lt.mp hge
      · exact absurd hw hwf
  · have hnn : (0 : ℚ) ≤ 100 * |s.goalZoom - s.map.zoom| := by positivity
    have hc : (0 : ℤ) ≤ ⌈100 * |s.goalZoom - s.map.zoom|⌉ := Int.ceil_nonneg hnn
    have h1 : (100 : ℚ) * |s.goalZoom - s.map.zoom|
        ≤ ((⌈100 * |s.goalZoom - s.map.zoom|⌉ : ℤ) : ℚ) := Int.le_ceil _
    have h2 : ((⌈100 * |s.goalZoom - s.map.zoom|⌉.toNat : ℕ) : ℚ)
        = ((⌈100 * |s.goalZoom - s.map.zoom|⌉ : ℤ) : ℚ) := by
      have h3 : ((⌈100 * |s.goalZoom - s.map.zoom|⌉.toNat : ℕ) : ℤ)
          = ⌈100 * |s.goalZoom - s.map.zoom|⌉ := Int.toNat_of_nonneg hc
      exact_mod_cast h3
    have hmle : |s.goalZoom - s.map.zoom|
        ≤ ((⌈100 * |s.goalZoom - s.map.zoom|⌉.toNat : ℕ) : ℚ) / 100 := by
      rw [h2]
      linarith
    exact convergence_aux h _ s hcons ⟨k, hz⟩ hδ hw hmle

/-- C1 witness: the hypotheses and both conclusions at the concrete
mid-gesture state ws1 (zoom 10, goal 10.5, cursor off-center, gesture
ended). -/
theorem C1_convergence_witness :
    consistent ws1 ∧ ws1.map.zoom = ((1000 : ℤ) : ℚ) / 100 ∧ ¬ deltaZero ws1 ∧
    ws1.isWheeling = false ∧
    (|ws1.goalZoom - (tickState cHost ws1).map.zoom| ≤ |ws1.goalZoom - ws1.map.zoom| ∧
      ∃ n, n ≤ (⌈100 * |ws1.goalZoom - ws1.map.zoom|⌉).toNat ∧
        |ws1.goalZoom - (loopRun cHost n ⟨ws1, true⟩).st.map.zoom| < 1 / 30) := by
  have h1 : consistent ws1 := by decide
  have hz : ws1.map.zoom = ((1000 : ℤ) : ℚ) / 100 := by norm_num [ws1]
  have h3 : ¬ deltaZero ws1 := by norm_num [deltaZero, Point.subtract, ws1]
  have h4 : ws1.isWheeling = false := rfl
  exact ⟨h1, hz, h3, h4, C1_convergence cHost ws1 h1 ⟨1000, hz⟩ h3 h4⟩

/-- The geographic point the commit of the stuck state keeps recomputing. -/
def cs1center : LatLng :=
  cHost.unproject ((cHost.project ⟨1, 2⟩ 10).subtract
    (Point.subtract ⟨401, 300⟩ ⟨400, 300⟩)) 10

/-- A stuck state: view zoom 10 on the grid, goal zoom 10.02, cursor one
pixel off center, gesture ended, transaction open, snapshots matching.  The
eased zoom floor-truncates back to 10, so every frame recommits the very
same view. -/
def cs1 : HandlerState where
  map := { center := cs1center, zoom := 10 }
  isWheeling := false
  wheelMousePosition := ⟨401, 300⟩
  centerPoint := ⟨400, 300⟩
  startLatLng := ⟨5, 5⟩
  wheelStartLatLng := ⟨1, 2⟩
  startZoom := 10
  moved := true
  zooming := true
  goalZoom := 10.02
  prevCenter := cs1center
  prevZoom := 10
  zoomField := 10
  centerField := cs1center

/-- The eased zoom of the stuck state truncates back to 10. -/
theorem cs1_nextZoom : nextZoomOf cs1 = 10 := by
  norm_num [nextZoomOf, truncate2, cs1]

/-- The commit of the stuck state recomputes its own center. -/
theorem cs1_newCenter : newCenterOf cHost cs1 = cs1center := by
  rw [newCenterOf, cs1_nextZoom]
  rfl

/-- A frame on the stuck state reproduces the stuck state and keeps the
loop running. -/
theorem cs1_fixed : tick cHost cs1 = .cont cs1 := by
  have hcons : consistent cs1 := ⟨rfl, rfl⟩
  have hns : ¬(|cs1.goalZoom - cs1.map.zoom| < 0.005 ∧ cs1.isWheeling = false) := by
    norm_num [cs1, abs_of_nonneg]
  have hδ : ¬ deltaZero cs1 := by norm_num [deltaZero, Point.subtract, cs1]
  rw [tick_commit cHost cs1 hcons hns hδ, commitState, cs1_newCenter, cs1_nextZoom]
  rfl

/-- The scheduler turn fixes the stuck state. -/
theorem cs1_loopFixed : loopStep cHost ⟨cs1, true⟩ = ⟨cs1, true⟩ := by
  simp [loopStep, cs1_fixed]

/-- An off-grid state: view zoom 10.004, goal zoom 10.01, cursor one pixel
off center, gesture ended, snapshots matching. -/
def cs2 : HandlerState where
  map := { center := ⟨5, 5⟩, zoom := 10.004 }
  isWheeling := false
  wheelMousePosition := ⟨401, 300⟩
  centerPoint := ⟨400, 300⟩
  startLatLng := ⟨5, 5⟩
  wheelStartLatLng := ⟨1, 2⟩
  startZoom := 10.004
  moved := true
  zooming := true
  goalZoom := 10.01
  prevCenter := ⟨5, 5⟩
  prevZoom := 10.004
  zoomField := 10.004
  centerField := ⟨5, 5⟩

/-- C1 counterexample: the claim fails on the code in both parts.  First, at
view zoom 10 and goal zoom 10.02 with the gesture ended and the cursor off
center, every number of frames leaves the loop running with the view zoom
still 10, so the zoom never comes within 0.005 of the goal: the floor
truncation of the easing step maps the 0.02 gap to itself.  Second, at the
off-grid view zoom 10.004 with goal zoom 10.01, one tick grows the gap from
0.006 to 0.01: |zoomDiff| is not non-increasing. -/
theorem C1_counterexample :
    (∀ n, (loopRun cHost n ⟨cs1, true⟩).running = true ∧
        ¬ |cs1.goalZoom - (loopRun cHost n ⟨cs1, true⟩).st.map.zoom| < 0.005) ∧
    |cs2.goalZoom - (tickState cHost cs2).map.zoom| > |cs2.goalZoom - cs2.map.zoom| := by
  constructor
  · intro n
    rw [loopStep_fixed cHost cs1_loopFixed n]
    refine ⟨rfl, ?_⟩
    norm_num [cs1, abs_of_nonneg]
  · have hcons : consistent cs2 := ⟨rfl, rfl⟩
    have hns : ¬(|cs2.goalZoom - cs2.map.zoom| < 0.005 ∧ cs2.isWheeling = false) := by
      norm_num [cs2, abs_of_nonneg]
    have hδ : ¬ deltaZero cs2 := by norm_num [deltaZero, Point.subtract, cs2]
    have hz : (tickState cHost cs2).map.zoom = 10 := by
      simp only [tickState, tick_commit cHost cs2 hcons hns hδ]
      show nextZoomOf cs2 = 10
      norm_num [nextZoomOf, truncate2, cs2]
    rw [hz]
    norm_num [cs2, abs_of_nonneg]

end SmoothWheelZoom
